import Mathlib

/-!
Shallow embedding of the Schedula backend (Express + Prisma to-do/activity
scheduler) for checking its natural-language specification.

Timestamps are modelled as integers (epoch milliseconds); `now` is passed
explicitly where the source calls `new Date()`.  The Prisma store is
modelled as explicit lists of rows; each route handler becomes a pure
function from the request data and the store to a result and the new store.
Password hashing (bcrypt) is external to the rules being checked, so the
login logic takes the boolean outcome of `comparePassword` as an input.
-/

namespace Schedula

/-- Epoch-millisecond timestamps, as the backend compares `Date` values. -/
abbrev Time := Int

/-- `UserStatus` enum of the Prisma schema, as used in `auth.routes.ts`. -/
inductive UserStatus
  | ACTIVE
  | BLOCKED
  | WAITING_EMAIL_CONFIRMATION
  | SUSPENDED
  deriving DecidableEq, Repr

/-- `EmailToken.type` enum: confirm-email vs reset-password tokens. -/
inductive TokenType
  | CONFIRM_EMAIL
  | RESET_PASSWORD
  deriving DecidableEq, Repr

/-- The 16-value `activityType` enum of `utils/validation.ts`. -/
inductive ActivityType
  | DOCTOR_APPOINTMENT
  | CALL
  | MEETING
  | GYM
  | GROCERY_RUN
  | STUDY_SESSION
  | PAY_BILLS
  | CAR_MAINTENANCE
  | DENTIST_APPOINTMENT
  | HAIRCUT
  | WORKOUT
  | LUNCH_MEETING
  | TEAM_STANDUP
  | CLIENT_CALL
  | PERSONAL_TIME
  | OTHER
  deriving DecidableEq, Repr

/-- The 5-value `completionOutcome` enum of `utils/validation.ts`. -/
inductive CompletionOutcome
  | COMPLETED_OK
  | NO_SHOW
  | DID_NOT_ANSWER
  | CANCELLED
  | FAILED
  deriving DecidableEq, Repr

/-- A `User` row: the fields `auth.routes.ts` reads and writes. -/
structure User where
  id : Nat
  email : String
  passwordHash : String
  firstName : Option String
  lastName : Option String
  status : UserStatus
  failedLoginAttempts : Nat
  lastLoginAt : Option Time
  deriving DecidableEq, Repr

/-- An `EmailToken` row (confirm-email / reset-password tokens). -/
structure EmailToken where
  userId : Nat
  type : TokenType
  tokenHash : String
  expiresAt : Time
  usedAt : Option Time
  deriving DecidableEq, Repr

/-- An `Activity` row's mutable fields, as `activity.routes.ts` handles them. -/
structure Activity where
  title : Option String
  notes : Option String
  activityType : ActivityType
  scheduledAt : Option Time
  recordedAt : Option Time
  completionOutcome : Option CompletionOutcome
  deletedAt : Option Time
  deletedReason : Option String
  deriving DecidableEq, Repr

/-- An activity row together with its key: `id` and owning `userId`. -/
structure ActivityRow where
  id : Nat
  userId : Nat
  act : Activity
  deriving DecidableEq, Repr

/-- `prisma.activity.findFirst({ where: { id, userId } })`. -/
def findFirst (rows : List ActivityRow) (id userId : Nat) : Option ActivityRow :=
  rows.find? fun r => r.id == id && r.userId == userId

/-- `prisma.activity.update({ where: { id }, data })`: replace the activity of
every row with this `id` (Prisma's `id` is unique). -/
def updateById (rows : List ActivityRow) (id : Nat) (a : Activity) : List ActivityRow :=
  rows.map fun r => if r.id == id then { r with act := a } else r

/-! ## Credential utilities: `utils/password.ts` -/

/-- The regex class `[a-zA-Z]` applied to one character. -/
def isPasswordLetter (c : Char) : Bool :=
  (Char.ofNat 97 ≤ c && c ≤ Char.ofNat 122) || (Char.ofNat 65 ≤ c && c ≤ Char.ofNat 90)

/-- The regex class `[0-9]` applied to one character. -/
def isPasswordNumber (c : Char) : Bool :=
  Char.ofNat 48 ≤ c && c ≤ Char.ofNat 57

/-- The fixed punctuation set of the symbol regex in `utils/password.ts`. -/
def passwordSymbols : List Char :=
  ['!', '@', '#', '$', '%', Char.ofNat 94, '&', '*', '(', ')', '_', '+', '-', '=',
   '[', ']', Char.ofNat 123, Char.ofNat 125, ';', Char.ofNat 39, ':', Char.ofNat 34,
   Char.ofNat 92, '|', ',', '.', '<', '>', '/', '?']

/-- `/[a-zA-Z]/.test(password)`. -/
def hasLetter (password : String) : Bool :=
  password.toList.any isPasswordLetter

/-- `/[0-9]/.test(password)`. -/
def hasNumber (password : String) : Bool :=
  password.toList.any isPasswordNumber

/-- The symbol regex test of `utils/password.ts`. -/
def hasSymbol (password : String) : Bool :=
  password.toList.any fun c => passwordSymbols.contains c

/-- The `{ valid, error? }` result of `validatePasswordStrength`. -/
structure StrengthResult where
  valid : Bool
  error : Option String
  deriving DecidableEq, Repr

/-- `validatePasswordStrength` of `utils/password.ts`: length first, then
letter, number, symbol, each returning its own message. -/
def validatePasswordStrength (password : String) : StrengthResult :=
  if password.length < 8 then
    { valid := false, error := some "Password must be at least 8 characters long" }
  else if !(hasLetter password) then
    { valid := false, error := some "Password must include at least one letter" }
  else if !(hasNumber password) then
    { valid := false, error := some "Password must include at least one number" }
  else if !(hasSymbol password) then
    { valid := false, error := some "Password must include at least one symbol" }
  else
    { valid := true, error := none }

/-! ## Activity routes: `routes/activity.routes.ts` -/

/-- Request body for `POST /activities`, before the branch on which of the
two zod schemas applies.  Dates arrive as ISO strings; here they are the
parsed instants. -/
structure CreateActivityBody where
  title : Option String
  notes : Option String
  activityType : ActivityType
  scheduledAt : Option Time
  recordedAt : Option Time
  completionOutcome : Option CompletionOutcome
  deriving DecidableEq, Repr

/-- Outcome of `POST /activities`: a 400 from zod or the either-or check, a
400 from the date rules, or 201 with the created activity. -/
inductive CreateActivityResult
  | validationError (message : String)
  | invalidDate (message : String)
  | created (activity : Activity)
  deriving DecidableEq, Repr

/-- The `POST /activities` handler.  `isScheduled` is
`req.body.scheduledAt && !req.body.recordedAt`; `isRecorded` is
`req.body.recordedAt`; the scheduled branch parses
`createScheduledActivitySchema` (title required, nonempty) and rejects a
non-future date; the recorded branch parses `createRecordedActivitySchema`
(completionOutcome required; `scheduledAt` is not a field of that schema, so
it is dropped) and rejects a non-past date; otherwise 400. -/
def createActivity (rows : List ActivityRow) (newId userId : Nat)
    (body : CreateActivityBody) (now : Time) :
    CreateActivityResult × List ActivityRow :=
  let isScheduled := body.scheduledAt.isSome && body.recordedAt.isNone
  let isRecorded := body.recordedAt.isSome
  if isScheduled then
    match body.scheduledAt, body.title with
    | some d, some t =>
      if t.length < 1 then (.validationError "Title is required", rows)
      else if d ≤ now then
        (.invalidDate "Scheduled activities must be in the future", rows)
      else
        let a : Activity :=
          { title := some t, notes := body.notes, activityType := body.activityType,
            scheduledAt := some d, recordedAt := none, completionOutcome := none,
            deletedAt := none, deletedReason := none }
        (.created a, rows ++ [⟨newId, userId, a⟩])
    | _, none => (.validationError "Title is required", rows)
    | none, _ => (.validationError "Required", rows)
  else if isRecorded then
    match body.recordedAt, body.completionOutcome with
    | some d, some oc =>
      if now ≤ d then
        (.invalidDate "Recorded activities must be in the past", rows)
      else
        let a : Activity :=
          { title := none, notes := body.notes, activityType := body.activityType,
            scheduledAt := none, recordedAt := some d, completionOutcome := some oc,
            deletedAt := none, deletedReason := none }
        (.created a, rows ++ [⟨newId, userId, a⟩])
    | _, none => (.validationError "Required", rows)
    | none, _ => (.validationError "Required", rows)
  else
    (.validationError "Activity must be either scheduled or recorded", rows)

/-- Request body for `PATCH /activities/:id` (`updateActivitySchema`): all
fields optional, title nonempty when present. -/
structure UpdateActivityBody where
  title : Option String
  notes : Option String
  scheduledAt : Option Time
  deriving DecidableEq, Repr

/-- Outcome of `PATCH /activities/:id`. -/
inductive UpdateActivityResult
  | validationError (message : String)
  | notFound
  | invalidDate (message : String)
  | ok (activity : Activity)
  deriving DecidableEq, Repr

/-- The `PATCH /activities/:id` handler: zod parse, `findFirst { id, userId }`
(404 when absent), future-check on a supplied `scheduledAt`, then
`prisma.activity.update` setting exactly the supplied fields (an `undefined`
field is left unchanged). -/
def patchActivity (rows : List ActivityRow) (id userId : Nat)
    (body : UpdateActivityBody) (now : Time) :
    UpdateActivityResult × List ActivityRow :=
  if (match body.title with | some t => t.length == 0 | none => false) then
    (.validationError "String must contain at least 1 character(s)", rows)
  else
    match findFirst rows id userId with
    | none => (.notFound, rows)
    | some r =>
      let proceed : UpdateActivityResult × List ActivityRow :=
        let a : Activity :=
          { r.act with
            title := match body.title with | some t => some t | none => r.act.title,
            notes := match body.notes with | some n => some n | none => r.act.notes,
            scheduledAt :=
              match body.scheduledAt with | some d => some d | none => r.act.scheduledAt }
        (.ok a, updateById rows r.id a)
      match body.scheduledAt with
      | some d =>
        if d ≤ now then (.invalidDate "Scheduled date must be in the future", rows)
        else proceed
      | none => proceed

/-- Outcome of `POST /activities/:id/complete`. -/
inductive CompleteActivityResult
  | notFound
  | notScheduled (message : String)
  | invalidDate (message : String)
  | ok (activity : Activity)
  deriving DecidableEq, Repr

/-- The `POST /activities/:id/complete` handler: `findFirst { id, userId }`
(404), reject when `activity.scheduledAt` is unset, reject a non-past
completion date, then set `recordedAt` and `completionOutcome`. -/
def completeActivity (rows : List ActivityRow) (id userId : Nat)
    (completionDate : Time) (outcome : CompletionOutcome) (now : Time) :
    CompleteActivityResult × List ActivityRow :=
  match findFirst rows id userId with
  | none => (.notFound, rows)
  | some r =>
    if r.act.scheduledAt.isNone then
      (.notScheduled "Only scheduled activities can be completed", rows)
    else if now ≤ completionDate then
      (.invalidDate "Completion date must be in the past", rows)
    else
      let a : Activity :=
        { r.act with recordedAt := some completionDate, completionOutcome := some outcome }
      (.ok a, updateById rows r.id a)

/-- Outcome of `DELETE /activities/:id`. -/
inductive DeleteActivityResult
  | validationError (message : String)
  | notFound
  | ok (activity : Activity)
  deriving DecidableEq, Repr

/-- The `DELETE /activities/:id` handler (soft delete): `deleteActivitySchema`
requires a nonempty reason; `findFirst { id, userId }` does not filter on
`deletedAt`; the update sets `deletedAt` to now and `deletedReason` to the
given reason. -/
def deleteActivity (rows : List ActivityRow) (id userId : Nat)
    (reason : String) (now : Time) :
    DeleteActivityResult × List ActivityRow :=
  if reason.length < 1 then (.validationError "Deletion reason is required", rows)
  else
    match findFirst rows id userId with
    | none => (.notFound, rows)
    | some r =>
      let a : Activity := { r.act with deletedAt := some now, deletedReason := some reason }
      (.ok a, updateById rows r.id a)

/-- The `stats` object computed by `GET /activities` (the source's `open`
field is `openCount` here; `open` is a Lean keyword). -/
structure ActivityStats where
  total : Nat
  openCount : Nat
  completed : Nat
  deriving DecidableEq, Repr

/-- The stats computation of `GET /activities`: `scheduled` are activities
with `scheduledAt` and no `recordedAt`, `recorded` those with `recordedAt`;
each count then drops soft-deleted rows. -/
def activityStats (activities : List Activity) : ActivityStats :=
  let scheduled := activities.filter fun a => a.scheduledAt.isSome && a.recordedAt.isNone
  let recorded := activities.filter fun a => a.recordedAt.isSome
  { total := (activities.filter fun a => a.deletedAt.isNone).length
    openCount := (scheduled.filter fun a => a.deletedAt.isNone).length
    completed := (recorded.filter fun a => a.deletedAt.isNone).length }

/-! ## Auth routes: `routes/auth.routes.ts` -/

/-- Outcome of `POST /auth/login`.  `invalidCredentials none` is the 401 for
an unknown email (no `remainingAttempts` field); `invalidCredentials (some k)`
carries `remainingAttempts`.  `blocked` and `emailUnconfirmed` are the two
403s; `loginOk` is the 200 that issues the access and refresh tokens. -/
inductive LoginResult
  | invalidCredentials (remainingAttempts : Option Int)
  | blocked
  | emailUnconfirmed
  | loginOk
  deriving DecidableEq, Repr

/-- The `POST /auth/login` handler after `findUnique` by email: `user` is the
looked-up row (`none` = unknown email) and `passwordMatches` the outcome of
`comparePassword(body.password, user.passwordHash)`.  On a mismatch the
counter is incremented and the status set to `BLOCKED` when the new counter
reaches 10; on a match the counter resets and `lastLoginAt` is stamped.
Returns the response and the user row as left in the store. -/
def login (user : Option User) (passwordMatches : Bool) (now : Time) :
    LoginResult × Option User :=
  match user with
  | none => (.invalidCredentials none, none)
  | some u =>
    if u.status = .BLOCKED then (.blocked, some u)
    else if u.status = .WAITING_EMAIL_CONFIRMATION then (.emailUnconfirmed, some u)
    else if !passwordMatches then
      let attempts := u.failedLoginAttempts + 1
      let u' : User :=
        { u with
          failedLoginAttempts := attempts,
          status := if attempts ≥ 10 then .BLOCKED else u.status }
      if u'.status = .BLOCKED then (.blocked, some u')
      else (.invalidCredentials (some ((10 : Int) - (attempts : Int))), some u')
    else
      (.loginOk, some { u with failedLoginAttempts := 0, lastLoginAt := some now })

/-- `n` consecutive login attempts with the same password outcome, each one
acting on the user row the previous attempt left behind. -/
def loginAttempts (n : Nat) (passwordMatches : Bool) (now : Time)
    (user : Option User) : Option User :=
  match n with
  | 0 => user
  | n + 1 => loginAttempts n passwordMatches now (login user passwordMatches now).snd

/-- Outcome of `POST /auth/confirm-email`. -/
inductive ConfirmEmailResult
  | invalidToken
  | alreadyUsed
  | expired
  | wrongType
  | confirmed
  deriving DecidableEq, Repr

/-- The `POST /auth/confirm-email` handler after the token lookup by hash:
`tok` is the `findUnique({ where: { tokenHash } })` result and `user` the
token's owner.  Checks run in source order: absent, `usedAt` set,
`expiresAt < now`, type not `CONFIRM_EMAIL`; then one `$transaction` sets the
user's status to `ACTIVE` and the token's `usedAt` together.  Returns the
response with the user and token rows as left in the store. -/
def confirmEmail (tok : Option EmailToken) (user : User) (now : Time) :
    ConfirmEmailResult × User × Option EmailToken :=
  match tok with
  | none => (.invalidToken, user, none)
  | some t =>
    if t.usedAt.isSome then (.alreadyUsed, user, some t)
    else if t.expiresAt < now then (.expired, user, some t)
    else if t.type ≠ .CONFIRM_EMAIL then (.wrongType, user, some t)
    else (.confirmed, { user with status := .ACTIVE }, some { t with usedAt := some now })

/-- The HTTP status and body message of a `POST /auth/forgot-password`
response. -/
structure ForgotPasswordResponse where
  status : Nat
  message : String
  deriving DecidableEq, Repr

/-- The `POST /auth/forgot-password` handler after `findUnique` by email:
an unknown email answers immediately; a known one mints a `RESET_PASSWORD`
token (1 h expiry) keyed by the hash of a fresh random token and emails it
(the email service never throws), then answers with the same message.
Returns the response and the token store. -/
def forgotPassword (user : Option User) (newTokenHash : String) (now : Time)
    (tokens : List EmailToken) : ForgotPasswordResponse × List EmailToken :=
  match user with
  | none => ({ status := 200, message := "If the email exists, a reset link has been sent." }, tokens)
  | some u =>
    let t : EmailToken :=
      { userId := u.id, type := .RESET_PASSWORD, tokenHash := newTokenHash,
        expiresAt := now + 60 * 60 * 1000, usedAt := none }
    ({ status := 200, message := "If the email exists, a reset link has been sent." },
      tokens ++ [t])

/-! ## Theorems -/

/-- Claim C7: for every password `p`, `validatePasswordStrength(p).valid` is
true iff `p` has length at least 8 and contains at least one letter, one
digit, and one symbol from the fixed punctuation set; when invalid, the
returned error is the first failing rule's message in the order length,
letter, digit, symbol. -/
theorem validatePasswordStrength_spec (p : String) :
    ((validatePasswordStrength p).valid = true ↔
      (8 ≤ p.length ∧ hasLetter p = true ∧ hasNumber p = true ∧ hasSymbol p = true))
    ∧ (p.length < 8 →
      (validatePasswordStrength p).error =
        some "Password must be at least 8 characters long")
    ∧ (8 ≤ p.length → hasLetter p = false →
      (validatePasswordStrength p).error =
        some "Password must include at least one letter")
    ∧ (8 ≤ p.length → hasLetter p = true → hasNumber p = false →
      (validatePasswordStrength p).error =
        some "Password must include at least one number")
    ∧ (8 ≤ p.length → hasLetter p = true → hasNumber p = true → hasSymbol p = false →
      (validatePasswordStrength p).error =
        some "Password must include at least one symbol") := by
  unfold validatePasswordStrength
  split_ifs with h1 h2 h3 h4 <;> simp_all

/-- Concrete instance of `validatePasswordStrength_spec` at the password
"Abc12345?". -/
theorem validatePasswordStrength_spec_witness :
    ((validatePasswordStrength "Abc12345?").valid = true ↔
      (8 ≤ ("Abc12345?" : String).length ∧ hasLetter "Abc12345?" = true ∧
        hasNumber "Abc12345?" = true ∧ hasSymbol "Abc12345?" = true))
    ∧ (("Abc12345?" : String).length < 8 →
      (validatePasswordStrength "Abc12345?").error =
        some "Password must be at least 8 characters long")
    ∧ (8 ≤ ("Abc12345?" : String).length → hasLetter "Abc12345?" = false →
      (validatePasswordStrength "Abc12345?").error =
        some "Password must include at least one letter")
    ∧ (8 ≤ ("Abc12345?" : String).length → hasLetter "Abc12345?" = true →
      hasNumber "Abc12345?" = false →
      (validatePasswordStrength "Abc12345?").error =
        some "Password must include at least one number")
    ∧ (8 ≤ ("Abc12345?" : String).length → hasLetter "Abc12345?" = true →
      hasNumber "Abc12345?" = true → hasSymbol "Abc12345?" = false →
      (validatePasswordStrength "Abc12345?").error =
        some "Password must include at least one symbol") :=
  validatePasswordStrength_spec "Abc12345?"

/-- A recorded-only activity as `POST /activities` creates one: `recordedAt`
set, `completionOutcome` set, no `scheduledAt`. -/
def recordedOnly : Activity :=
  { title := none, notes := none, activityType := .GYM,
    scheduledAt := none, recordedAt := some (-10),
    completionOutcome := some .COMPLETED_OK, deletedAt := none, deletedReason := none }

/-- A scheduled activity after the complete operation: `scheduledAt` kept,
`recordedAt` and `completionOutcome` set. -/
def completedScheduled : Activity :=
  { title := some "Dentist", notes := none, activityType := .DENTIST_APPOINTMENT,
    scheduledAt := some 5, recordedAt := some (-10),
    completionOutcome := some .NO_SHOW, deletedAt := none, deletedReason := none }

/-- Claim C1 (failing input): the PATCH handler never looks at `recordedAt`,
so a PATCH on the caller's recorded activity (id 1, owner 7, `recordedAt`
set) with body `{ title: "Changed" }` succeeds and modifies the stored title
— it does not fail NotFound or StateConflict. -/
theorem patchActivity_succeeds_on_recorded :
    (patchActivity [⟨1, 7, recordedOnly⟩] 1 7
        { title := some "Changed", notes := none, scheduledAt := none } 0).fst =
      .ok { recordedOnly with title := some "Changed" }
    ∧ (patchActivity [⟨1, 7, recordedOnly⟩] 1 7
        { title := some "Changed", notes := none, scheduledAt := none } 0).snd =
      [⟨1, 7, { recordedOnly with title := some "Changed" }⟩] :=
  ⟨rfl, rfl⟩

/-- Claim C2 (failing input): the complete handler only checks that
`scheduledAt` is set, so completing an already-completed activity (owner 7,
`scheduledAt` = 5, `recordedAt` = -10, outcome NO_SHOW) again with date -3
and outcome COMPLETED_OK succeeds and overwrites both `recordedAt` and
`completionOutcome` — the scheduled-to-recorded transition is not one-way. -/
theorem completeActivity_overwrites_completed :
    (completeActivity [⟨1, 7, completedScheduled⟩] 1 7 (-3) .COMPLETED_OK 0).fst =
      .ok { completedScheduled with
              recordedAt := some (-3), completionOutcome := some .COMPLETED_OK }
    ∧ (completeActivity [⟨1, 7, completedScheduled⟩] 1 7 (-3) .COMPLETED_OK 0).snd =
      [⟨1, 7, { completedScheduled with
                  recordedAt := some (-3), completionOutcome := some .COMPLETED_OK }⟩] :=
  ⟨rfl, rfl⟩

/-- A create body carrying both a (future) `scheduledAt` and a (past)
`recordedAt` with a completion outcome. -/
def bothDatesBody : CreateActivityBody :=
  { title := none, notes := none, activityType := .GYM,
    scheduledAt := some 10, recordedAt := some (-5),
    completionOutcome := some .COMPLETED_OK }

/-- Claim C3 (counterexample): a create request with both `scheduledAt` and
`recordedAt` does not fail — `isRecorded` wins, the recorded schema drops
`scheduledAt`, and a recorded activity is created (201). -/
theorem createActivity_both_dates_creates :
    (createActivity [] 1 7 bothDatesBody 0).fst =
      .created { title := none, notes := none, activityType := .GYM,
                 scheduledAt := none, recordedAt := some (-5),
                 completionOutcome := some .COMPLETED_OK,
                 deletedAt := none, deletedReason := none }
    ∧ (createActivity [] 1 7 bothDatesBody 0).snd =
      [⟨1, 7, { title := none, notes := none, activityType := .GYM,
                scheduledAt := none, recordedAt := some (-5),
                completionOutcome := some .COMPLETED_OK,
                deletedAt := none, deletedReason := none }⟩] :=
  ⟨rfl, rfl⟩

/-- Claim C3 (amended): a create request with neither date fails with the
either-or validation error and creates nothing; a request with both dates is
processed exactly as the same request without its `scheduledAt` — the
recorded branch handles it and `scheduledAt` is ignored. -/
theorem createActivity_exclusivity (rows : List ActivityRow) (newId userId : Nat)
    (body : CreateActivityBody) (now : Time) :
    (body.scheduledAt = none → body.recordedAt = none →
      createActivity rows newId userId body now =
        (.validationError "Activity must be either scheduled or recorded", rows))
    ∧ (body.recordedAt.isSome = true →
      createActivity rows newId userId body now =
        createActivity rows newId userId { body with scheduledAt := none } now) := by
  constructor
  · intro hs hr
    simp [createActivity, hs, hr]
  · intro hr
    obtain ⟨d, hd⟩ := Option.isSome_iff_exists.mp hr
    simp [createActivity, hd]

/-- Concrete instance of `createActivity_exclusivity`: the empty body and the
both-dates body at the empty store. -/
theorem createActivity_exclusivity_witness :
    ((bothDatesBody.scheduledAt = none → bothDatesBody.recordedAt = none →
      createActivity [] 1 7 bothDatesBody 0 =
        (.validationError "Activity must be either scheduled or recorded", []))
    ∧ (bothDatesBody.recordedAt.isSome = true →
      createActivity [] 1 7 bothDatesBody 0 =
        createActivity [] 1 7 { bothDatesBody with scheduledAt := none } 0)) :=
  createActivity_exclusivity [] 1 7 bothDatesBody 0

/-- A user whose status is `SUSPENDED` with a clean failed-login counter. -/
def suspendedUser : User :=
  { id := 3, email := "s@example.com", passwordHash := "hash-s",
    firstName := none, lastName := none, status := .SUSPENDED,
    failedLoginAttempts := 0, lastLoginAt := none }

/-- Claim C4 (counterexample): the login handler checks only `BLOCKED` and
`WAITING_EMAIL_CONFIRMATION`; a `SUSPENDED` user supplying the correct
password completes a successful login — counter reset, `lastLoginAt`
stamped, tokens issued. -/
theorem login_suspended_succeeds :
    login (some suspendedUser) true 42 =
      (.loginOk, some { suspendedUser with failedLoginAttempts := 0, lastLoginAt := some 42 }) :=
  rfl

/-- Claim C4 (amended): a login completes successfully iff the password
matches and the user's status is neither `BLOCKED` nor
`WAITING_EMAIL_CONFIRMATION` (so `ACTIVE` and `SUSPENDED` both can); a
`BLOCKED` or `WAITING_EMAIL_CONFIRMATION` user is rejected before the
password is even consulted, hence before any token is issued. -/
theorem login_status_gate (u : User) (pw : Bool) (now : Time) :
    ((login (some u) pw now).fst = .loginOk ↔
      (pw = true ∧ u.status ≠ .BLOCKED ∧ u.status ≠ .WAITING_EMAIL_CONFIRMATION))
    ∧ (u.status = .BLOCKED → login (some u) pw now = (.blocked, some u))
    ∧ (u.status = .WAITING_EMAIL_CONFIRMATION →
        login (some u) pw now = (.emailUnconfirmed, some u)) := by
  refine ⟨?_, fun h => by simp [login, h], fun h => by simp [login, h]⟩
  by_cases hb : u.status = .BLOCKED
  · simp [login, hb]
  by_cases hw : u.status = .WAITING_EMAIL_CONFIRMATION
  · simp [login, hw, hb]
  cases pw with
  | false =>
    simp only [login, hb, hw, if_false, Bool.not_false, if_true]
    split_ifs <;> simp_all
  | true =>
    simp [login, hb, hw]

/-- Concrete instance of `login_status_gate` at the suspended user with the
correct password. -/
theorem login_status_gate_witness :
    ((login (some suspendedUser) true 42).fst = .loginOk ↔
      (true = true ∧ suspendedUser.status ≠ .BLOCKED ∧
        suspendedUser.status ≠ .WAITING_EMAIL_CONFIRMATION))
    ∧ (suspendedUser.status = .BLOCKED →
        login (some suspendedUser) true 42 = (.blocked, some suspendedUser))
    ∧ (suspendedUser.status = .WAITING_EMAIL_CONFIRMATION →
        login (some suspendedUser) true 42 = (.emailUnconfirmed, some suspendedUser)) :=
  login_status_gate suspendedUser true 42

/-- A failed attempt on an `ACTIVE` account below the threshold, iterated:
each one adds 1 to the counter, and the status flips to `BLOCKED` exactly
when the counter reaches 10. -/
lemma loginAttempts_active (n : Nat) :
    ∀ (u : User) (now : Time), u.status = .ACTIVE → u.failedLoginAttempts < 10 →
      u.failedLoginAttempts + n ≤ 10 →
      loginAttempts n false now (some u) =
        some { u with
          failedLoginAttempts := u.failedLoginAttempts + n,
          status := if 10 ≤ u.failedLoginAttempts + n then .BLOCKED else .ACTIVE } := by
  induction n with
  | zero =>
    intro u now h hlt _
    obtain ⟨uid, em, ph, fn, ln, st, fla, lla⟩ := u
    simp only at h hlt
    subst h
    have hnot : ¬ 10 ≤ fla := by omega
    simp [loginAttempts, hnot]
  | succ n ih =>
    intro u now h hlt hle
    obtain ⟨uid, em, ph, fn, ln, st, fla, lla⟩ := u
    simp only at h hlt hle
    subst h
    have hstep : (login (some (User.mk uid em ph fn ln .ACTIVE fla lla)) false now).snd =
        some (User.mk uid em ph fn ln
          (if 10 ≤ fla + 1 then .BLOCKED else .ACTIVE) (fla + 1) lla) := by
      simp only [login]
      split_ifs <;> simp_all
    rw [loginAttempts, hstep]
    by_cases hcase : fla + 1 < 10
    · rw [if_neg (by omega)]
      rw [ih (User.mk uid em ph fn ln .ACTIVE (fla + 1) lla) now rfl hcase
          (by show fla + 1 + n ≤ 10; omega)]
      rw [show fla + 1 + n = fla + (n + 1) from by omega]
    · have hn0 : n = 0 := by omega
      subst hn0
      norm_num
      have h10 : (10 : Nat) ≤ fla + 1 := by omega
      simp [loginAttempts, h10]

/-- Claim C5: a failed login on an account that passes the status checks
increments the failed-login counter by exactly 1 and flips the status to
`BLOCKED` exactly when the incremented counter reaches 10; the response is
then Blocked, otherwise InvalidCredentials carrying
`remainingAttempts = 10 - counter`; and starting from a counter of 0, after
exactly 10 consecutive failed logins the account is `BLOCKED` with the 11th
attempt, even with the correct password, rejected Blocked. -/
theorem login_failed_attempt_blocking (u : User) (now : Time) :
    (u.status ≠ .BLOCKED → u.status ≠ .WAITING_EMAIL_CONFIRMATION →
      ((login (some u) false now).snd =
        some { u with
                failedLoginAttempts := u.failedLoginAttempts + 1,
                status := if u.failedLoginAttempts + 1 ≥ 10 then .BLOCKED else u.status })
      ∧ (u.failedLoginAttempts + 1 ≥ 10 →
          (login (some u) false now).fst = .blocked)
      ∧ (u.failedLoginAttempts + 1 < 10 →
          (login (some u) false now).fst =
            .invalidCredentials (some ((10 : Int) - ((u.failedLoginAttempts : Int) + 1)))))
    ∧ (u.status = .ACTIVE → u.failedLoginAttempts = 0 →
      loginAttempts 10 false now (some u) =
        some { u with failedLoginAttempts := 10, status := .BLOCKED }
      ∧ (login (loginAttempts 10 false now (some u)) true now).fst = .blocked) := by
  constructor
  · intro hb hw
    refine ⟨?_, ?_, ?_⟩
    · simp [login, hb, hw]
      split_ifs <;> rfl
    · intro h10
      have h9 : 9 ≤ u.failedLoginAttempts := by omega
      simp [login, hb, hw, h9]
    · intro h10
      have h9 : ¬ 9 ≤ u.failedLoginAttempts := by omega
      simp [login, hb, hw, h9]
  · intro ha h0
    have hiter := loginAttempts_active 10 u now ha (by omega) (by omega)
    rw [h0] at hiter
    norm_num at hiter
    refine ⟨hiter, ?_⟩
    rw [hiter]
    simp [login]

/-- Concrete instance of `login_failed_attempt_blocking`: an `ACTIVE` user
with counter 0 is blocked after 10 consecutive failed logins and the 11th
attempt with the correct password is rejected. -/
theorem login_failed_attempt_blocking_witness :
    (suspendedUser.status ≠ .BLOCKED → suspendedUser.status ≠ .WAITING_EMAIL_CONFIRMATION →
      ((login (some suspendedUser) false 42).snd =
        some { suspendedUser with
                failedLoginAttempts := suspendedUser.failedLoginAttempts + 1,
                status := if suspendedUser.failedLoginAttempts + 1 ≥ 10 then .BLOCKED
                          else suspendedUser.status })
      ∧ (suspendedUser.failedLoginAttempts + 1 ≥ 10 →
          (login (some suspendedUser) false 42).fst = .blocked)
      ∧ (suspendedUser.failedLoginAttempts + 1 < 10 →
          (login (some suspendedUser) false 42).fst =
            .invalidCredentials
              (some ((10 : Int) - ((suspendedUser.failedLoginAttempts : Int) + 1)))))
    ∧ (suspendedUser.status = .ACTIVE → suspendedUser.failedLoginAttempts = 0 →
      loginAttempts 10 false 42 (some suspendedUser) =
        some { suspendedUser with failedLoginAttempts := 10, status := .BLOCKED }
      ∧ (login (loginAttempts 10 false 42 (some suspendedUser)) true 42).fst = .blocked) :=
  login_failed_attempt_blocking suspendedUser 42

/-- Claim C6: confirm-email fails InvalidToken when no token matches,
AlreadyUsed when `usedAt` is set, Expired when `expiresAt` is in the past,
WrongType when the type is not `CONFIRM_EMAIL`, in that order (each failure
taking priority over the later checks); every failure leaves both the user
and the token unchanged, and success sets the user's status `ACTIVE` and the
token's `usedAt` in the one atomic transaction. -/
theorem confirmEmail_spec (tok : Option EmailToken) (user : User) (now : Time) :
    (tok = none → confirmEmail tok user now = (.invalidToken, user, none))
    ∧ (∀ t, tok = some t →
        (t.usedAt.isSome = true →
          confirmEmail tok user now = (.alreadyUsed, user, some t))
        ∧ (t.usedAt = none → t.expiresAt < now →
          confirmEmail tok user now = (.expired, user, some t))
        ∧ (t.usedAt = none → ¬ t.expiresAt < now → t.type ≠ .CONFIRM_EMAIL →
          confirmEmail tok user now = (.wrongType, user, some t))
        ∧ (t.usedAt = none → ¬ t.expiresAt < now → t.type = .CONFIRM_EMAIL →
          confirmEmail tok user now =
            (.confirmed, { user with status := .ACTIVE },
              some { t with usedAt := some now }))) := by
  refine ⟨fun h => by simp [confirmEmail, h], fun t ht => ?_⟩
  subst ht
  refine ⟨fun hu => by simp [confirmEmail, hu], fun hu he => ?_, fun hu he hty => ?_,
    fun hu he hty => ?_⟩
  · simp [confirmEmail, hu, he]
  · simp [confirmEmail, hu, he, hty]
  · simp [confirmEmail, hu, he, hty]

/-- A fresh, unexpired `CONFIRM_EMAIL` token for user 3. -/
def freshConfirmToken : EmailToken :=
  { userId := 3, type := .CONFIRM_EMAIL, tokenHash := "th", expiresAt := 100, usedAt := none }

/-- Concrete instance of `confirmEmail_spec`: a fresh confirm token for the
suspended sample user at time 42. -/
theorem confirmEmail_spec_witness :
    ((some freshConfirmToken : Option EmailToken) = none →
      confirmEmail (some freshConfirmToken) suspendedUser 42 =
        (.invalidToken, suspendedUser, none))
    ∧ (∀ t, (some freshConfirmToken : Option EmailToken) = some t →
        (t.usedAt.isSome = true →
          confirmEmail (some freshConfirmToken) suspendedUser 42 =
            (.alreadyUsed, suspendedUser, some t))
        ∧ (t.usedAt = none → t.expiresAt < 42 →
          confirmEmail (some freshConfirmToken) suspendedUser 42 =
            (.expired, suspendedUser, some t))
        ∧ (t.usedAt = none → ¬ t.expiresAt < 42 → t.type ≠ .CONFIRM_EMAIL →
          confirmEmail (some freshConfirmToken) suspendedUser 42 =
            (.wrongType, suspendedUser, some t))
        ∧ (t.usedAt = none → ¬ t.expiresAt < 42 → t.type = .CONFIRM_EMAIL →
          confirmEmail (some freshConfirmToken) suspendedUser 42 =
            (.confirmed, { suspendedUser with status := .ACTIVE },
              some { t with usedAt := some 42 }))) :=
  confirmEmail_spec (some freshConfirmToken) suspendedUser 42

/-- Claim C8: the forgot-password response is the same 200 with the same
generic message whether or not a user with the given email exists; only the
token store differs. -/
theorem forgotPassword_uniform_response (u : User) (newTokenHash : String)
    (now : Time) (tokens : List EmailToken) :
    (forgotPassword (some u) newTokenHash now tokens).fst =
      (forgotPassword none newTokenHash now tokens).fst
    ∧ (forgotPassword none newTokenHash now tokens).fst =
      { status := 200, message := "If the email exists, a reset link has been sent." } := by
  simp [forgotPassword]

/-- Counting a filtered list by a partition: when every element satisfies
`q` or `r` and never both, the `p`-count splits into the `q`-part's `p`-count
plus the `r`-part's `p`-count. -/
lemma length_filter_split {α : Type} (p q r : α → Bool) (l : List α)
    (hqr : ∀ a ∈ l, q a = true ∨ r a = true)
    (hdisj : ∀ a ∈ l, ¬(q a = true ∧ r a = true)) :
    (l.filter p).length =
      ((l.filter q).filter p).length + ((l.filter r).filter p).length := by
  induction l with
  | nil => simp
  | cons a t ih =>
    have hq := hqr a (by simp)
    have hd := hdisj a (by simp)
    have iht := ih (fun x hx => hqr x (by simp [hx])) (fun x hx => hdisj x (by simp [hx]))
    by_cases hpa : p a <;> by_cases hqa : q a <;> by_cases hra : r a <;>
      simp_all [List.filter_cons] <;> omega

/-- Claim C9: when every listed activity has `scheduledAt` or `recordedAt`
set (true of every activity creatable through the API), the stats of
`GET /activities` satisfy `total = open + completed`. -/
theorem activityStats_total_split (l : List Activity)
    (h : ∀ a ∈ l, a.scheduledAt.isSome = true ∨ a.recordedAt.isSome = true) :
    (activityStats l).total = (activityStats l).openCount + (activityStats l).completed := by
  unfold activityStats
  dsimp only
  apply length_filter_split
  · intro a ha
    by_cases hr : a.recordedAt.isSome = true
    · exact Or.inr hr
    · rcases h a ha with hs | hs
      · left
        simp_all [Option.isNone_iff_eq_none, Option.not_isSome_iff_eq_none]
      · exact absurd hs hr
  · intro a _ ⟨hq, hr⟩
    simp_all [Option.isNone_iff_eq_none]

/-- A scheduled, not yet recorded activity. -/
def schedOpen : Activity :=
  { title := some "Call", notes := none, activityType := .CALL,
    scheduledAt := some 50, recordedAt := none,
    completionOutcome := none, deletedAt := none, deletedReason := none }

/-- A small listing: one open scheduled activity, one recorded one, and one
soft-deleted recorded one. -/
def sampleActivities : List Activity :=
  [schedOpen, recordedOnly,
   { recordedOnly with deletedAt := some 1, deletedReason := some "dup" }]

/-- Concrete instance of `activityStats_total_split` at `sampleActivities`
(total 2 = open 1 + completed 1). -/
theorem activityStats_total_split_witness :
    (activityStats sampleActivities).total =
      (activityStats sampleActivities).openCount +
        (activityStats sampleActivities).completed :=
  activityStats_total_split sampleActivities (by decide)

/-- Claim C10: soft-deleting an activity the caller owns succeeds whenever
the reason is nonempty, even when the activity is already soft-deleted: the
row's `deletedAt` is overwritten with the current time and `deletedReason`
with the new reason, so the repeat is never an error but not idempotent on
the stored values. -/
theorem deleteActivity_overwrites (rows : List ActivityRow) (id userId : Nat)
    (reason : String) (now : Time) (r : ActivityRow)
    (hfind : findFirst rows id userId = some r)
    (hdel : r.act.deletedAt.isSome = true)
    (hreason : 1 ≤ reason.length) :
    deleteActivity rows id userId reason now =
      (.ok { r.act with deletedAt := some now, deletedReason := some reason },
        updateById rows r.id { r.act with deletedAt := some now, deletedReason := some reason }) := by
  unfold deleteActivity
  rw [if_neg (by omega)]
  simp [hfind]

/-- An activity row that is already soft-deleted. -/
def deletedRow : ActivityRow :=
  ⟨1, 7, { recordedOnly with deletedAt := some (-2), deletedReason := some "old" }⟩

/-- Concrete instance of `deleteActivity_overwrites`: deleting the already
soft-deleted row again with reason "done" at time 0 overwrites both
fields. -/
theorem deleteActivity_overwrites_witness :
    deleteActivity [deletedRow] 1 7 "done" 0 =
      (.ok { deletedRow.act with deletedAt := some 0, deletedReason := some "done" },
        updateById [deletedRow] deletedRow.id
          { deletedRow.act with deletedAt := some 0, deletedReason := some "done" }) :=
  deleteActivity_overwrites [deletedRow] 1 7 "done" 0 deletedRow rfl rfl (by decide)

end Schedula
